import Mathlib

/-!
Verification development for the ViralQuill X-API core:
retry/backoff logic (src/lib/services/x-api/retry.ts),
the quota tracker (quota-tracker.ts) and the API client (client.ts).

JavaScript numbers are modelled as rationals (ℚ); all arithmetic appearing
in the claims is exact at the relevant values, so rational arithmetic agrees
with IEEE doubles there.  Timestamps (Date values) are modelled as integer
milliseconds.  Async effects (sleep, the observability hook, console output)
do not affect any value or counter the claims mention and are not modelled.
-/

namespace ViralQuill

/-- Math.round of JavaScript: round half toward positive infinity. -/
def jsRound (q : ℚ) : ℤ := ⌊q + 1/2⌋

/-- Math.floor. -/
def jsFloor (q : ℚ) : ℤ := ⌊q⌋

-- ───────────────────────── retry.ts ─────────────────────────

/-- RetryConfig from retry.ts.  maxRetries is a count, the delays and the
multiplier are JS numbers. -/
structure RetryConfig where
  maxRetries : ℕ
  baseDelayMs : ℚ
  maxDelayMs : ℚ
  backoffMultiplier : ℚ
  jitter : Bool

/-- DEFAULT_RETRY_CONFIG from retry.ts. -/
def DEFAULT_RETRY_CONFIG : RetryConfig :=
  { maxRetries := 3, baseDelayMs := 1000, maxDelayMs := 60000
    backoffMultiplier := 2, jitter := true }

/-- calculateDelay from retry.ts.  The Math.random() sample is passed in as
an explicit argument random ∈ [0,1); with jitter disabled it is unused. -/
def calculateDelay (random : ℚ) (attempt : ℕ) (config : RetryConfig) : ℤ :=
  let exponentialDelay := config.baseDelayMs * config.backoffMultiplier ^ attempt
  let cappedDelay := min exponentialDelay config.maxDelayMs
  if config.jitter then
    let jitterRange := cappedDelay * (1/4)
    let jitterValue := (random * 2 - 1) * jitterRange
    max 0 (jsRound (cappedDelay + jitterValue))
  else
    jsRound cappedDelay

/-- isRetryable from retry.ts: 429 or any of 500..504. -/
def isRetryable (statusCode : ℕ) : Bool :=
  statusCode == 429 || (500 ≤ statusCode && statusCode ≤ 504)

/-- XApiError from retry.ts.  rateLimitReset is an optional millisecond
timestamp (the Date field). -/
structure XApiError where
  message : String
  statusCode : ℕ
  endpoint : String
  rateLimitReset : Option ℤ := none
deriving Repr, DecidableEq

/-- Loop body of withRetry from retry.ts.  The operation is modelled as a
map from the invocation index (the attempt counter) to that invocation's
outcome.  remaining = maxRetries − attempt.  Returns the final outcome
together with the number of invocations performed.  The delay computation,
the onRetry hook and the sleep between attempts affect no returned value
and are omitted. -/
def withRetryGo (fn : ℕ → Except XApiError α) : ℕ → ℕ → Except XApiError α × ℕ
  | attempt, remaining =>
    match fn attempt, remaining with
    | .ok v, _ => (.ok v, 1)
    | .error e, 0 => (.error e, 1)
    | .error e, r + 1 =>
      if isRetryable e.statusCode then
        let p := withRetryGo fn (attempt + 1) r
        (p.1, p.2 + 1)
      else
        (.error e, 1)

/-- withRetry from retry.ts: run the loop from attempt 0 with
config.maxRetries further attempts available. -/
def withRetry (fn : ℕ → Except XApiError α) (config : RetryConfig) :
    Except XApiError α × ℕ :=
  withRetryGo fn 0 config.maxRetries

/-- JS property lookup on a header record: exact string match on the key. -/
def lookupHeader (headers : List (String × String)) (key : String) : Option String :=
  (headers.find? (fun p => p.1 == key)).map (fun p => p.2)

/-- JS falsiness of an optional string: undefined and the empty string are
falsy, every other string is truthy. -/
def jsFalsy : Option String → Bool
  | none => true
  | some s => s == ""

/-- parseInt(s, 10): optional sign followed by leading decimal digits;
none models NaN (no digits to parse). -/
def jsParseInt (s : String) : Option ℤ :=
  let (sign, digits) :=
    match s.data with
    | '-' :: rest => ((-1 : ℤ), rest)
    | '+' :: rest => ((1 : ℤ), rest)
    | cs => ((1 : ℤ), cs)
  let lead := digits.takeWhile (fun c => c.isDigit)
  if lead.isEmpty then none
  else some (sign * (lead.foldl (fun acc c => acc * 10 + (c.toNat - 48)) (0 : ℕ) : ℕ))

/-- RateLimitHeaders from retry.ts; resetAt is the Date new Date(reset*1000)
as a millisecond timestamp.  A field is none when parseInt returned NaN. -/
structure RateLimitHeaders where
  limit : Option ℤ
  remaining : Option ℤ
  resetAt : Option ℤ
deriving Repr, DecidableEq

/-- parseRateLimitHeaders from retry.ts: exact lowercase key lookups,
null when any of the three values is falsy (absent or empty). -/
def parseRateLimitHeaders (headers : List (String × String)) :
    Option RateLimitHeaders :=
  let limit := lookupHeader headers "x-rate-limit-limit"
  let remaining := lookupHeader headers "x-rate-limit-remaining"
  let reset := lookupHeader headers "x-rate-limit-reset"
  if jsFalsy limit || jsFalsy remaining || jsFalsy reset then none
  else
    some { limit := jsParseInt (limit.getD "")
           remaining := jsParseInt (remaining.getD "")
           resetAt := (jsParseInt (reset.getD "")).map (fun n => n * 1000) }

/-- delayUntilReset from retry.ts: Date.now() is passed explicitly. -/
def delayUntilReset (resetAt now : ℤ) : ℤ :=
  max 0 (resetAt - now + 1000)

-- ───────────────────────── quota-tracker.ts ─────────────────────────

/-- QuotaTrackerConfig from quota-tracker.ts. -/
structure QuotaTrackerConfig where
  monthlyReadCap : ℚ
  monthlyWriteCap : ℚ
  reservePercent : ℚ
  warningThreshold : ℚ
  criticalThreshold : ℚ
deriving Repr, DecidableEq

/-- DEFAULT_QUOTA_CONFIG from quota-tracker.ts. -/
def DEFAULT_QUOTA_CONFIG : QuotaTrackerConfig :=
  { monthlyReadCap := 15000, monthlyWriteCap := 50000
    reservePercent := 1/10, warningThreshold := 7/10, criticalThreshold := 9/10 }

/-- The mutable fields of class QuotaTracker plus its immutable config.
resetDate is a millisecond timestamp. -/
structure QuotaTracker where
  readsUsed : ℚ
  writesUsed : ℚ
  cacheHits : ℚ
  totalRequests : ℚ
  activeUsers : ℚ
  config : QuotaTrackerConfig
  resetDate : ℤ
deriving Repr, DecidableEq

namespace QuotaTracker

/-- The constructor: counters zero, activeUsers 1, resetDate computed from
the clock (passed in as the precomputed next-reset timestamp). -/
def fresh (config : QuotaTrackerConfig) (resetDate : ℤ) : QuotaTracker :=
  { readsUsed := 0, writesUsed := 0, cacheHits := 0, totalRequests := 0
    activeUsers := 1, config := config, resetDate := resetDate }

/-- recordReads. -/
def recordReads (t : QuotaTracker) (count : ℚ) : QuotaTracker :=
  { t with readsUsed := t.readsUsed + count, totalRequests := t.totalRequests + count }

/-- recordWrites. -/
def recordWrites (t : QuotaTracker) (count : ℚ) : QuotaTracker :=
  { t with writesUsed := t.writesUsed + count, totalRequests := t.totalRequests + count }

/-- recordCacheHit. -/
def recordCacheHit (t : QuotaTracker) : QuotaTracker :=
  { t with cacheHits := t.cacheHits + 1, totalRequests := t.totalRequests + 1 }

/-- canRead: readsUsed + count ≤ monthlyReadCap × (1 − reservePercent).
The TS default argument count = 1 is written explicitly at call sites. -/
def canRead (t : QuotaTracker) (count : ℚ) : Bool :=
  decide (t.readsUsed + count ≤ t.config.monthlyReadCap * (1 - t.config.reservePercent))

/-- canWrite: writesUsed + count ≤ monthlyWriteCap. -/
def canWrite (t : QuotaTracker) (count : ℚ) : Bool :=
  decide (t.writesUsed + count ≤ t.config.monthlyWriteCap)

/-- canSystemRead: readsUsed + count ≤ monthlyReadCap. -/
def canSystemRead (t : QuotaTracker) (count : ℚ) : Bool :=
  decide (t.readsUsed + count ≤ t.config.monthlyReadCap)

/-- setActiveUsers: clamps to at least 1. -/
def setActiveUsers (t : QuotaTracker) (count : ℚ) : QuotaTracker :=
  { t with activeUsers := max 1 count }

/-- getFairShareReads: floor(cap × (1 − reserve) / activeUsers × 1.2). -/
def getFairShareReads (t : QuotaTracker) : ℤ :=
  let userBudget := t.config.monthlyReadCap * (1 - t.config.reservePercent)
  let fairShare := userBudget / t.activeUsers
  jsFloor (fairShare * (12/10))

/-- A Partial of the QuotaState snapshot: every field optional.  resetsAt is
the ISO-8601 string of the TS interface. -/
structure StatePart where
  monthlyReadsUsed : Option ℚ := none
  monthlyReadsLimit : Option ℚ := none
  monthlyWritesUsed : Option ℚ := none
  monthlyWritesLimit : Option ℚ := none
  resetsAt : Option String := none
  cacheHitRate : Option ℚ := none
deriving Repr, DecidableEq

/-- loadState from quota-tracker.ts: only monthlyReadsUsed and
monthlyWritesUsed are consulted; every other field of the snapshot is
ignored. -/
def loadState (t : QuotaTracker) (s : StatePart) : QuotaTracker :=
  let t1 := match s.monthlyReadsUsed with
    | some v => { t with readsUsed := v }
    | none => t
  match s.monthlyWritesUsed with
  | some v => { t1 with writesUsed := v }
  | none => t1

end QuotaTracker

-- ───────────────────────── client.ts ─────────────────────────

/-- chunkArray from client.ts: consecutive slices of length size.  The TS
loop never terminates when size = 0; the client only ever calls it with
size = 100, and the guard returns [] in that unreachable case. -/
def chunkArray (arr : List α) (size : ℕ) : List (List α) :=
  if arr.isEmpty || size == 0 then []
  else arr.take size :: chunkArray (arr.drop size) size
termination_by arr.length
decreasing_by
  rename_i h
  simp only [Bool.or_eq_true, beq_iff_eq, List.isEmpty_iff] at h
  push_neg at h
  simp only [List.length_drop]
  exact Nat.sub_lt (List.length_pos.mpr h.1) (Nat.pos_of_ne_zero h.2)

/-- Outcome of one public client operation: its result, the tracker after
the call, and how many transport requests were issued. -/
structure OpOutcome (τ : Type) where
  result : Except XApiError τ
  quota : QuotaTracker
  transportCalls : ℕ

/-- The XApiError thrown by a failed quota gate (statusCode 429, no
rateLimitReset). -/
def quotaGateError (message endpoint : String) : XApiError :=
  { message := message, statusCode := 429, endpoint := endpoint }

/-- The chunk loop of XApiClient.getTweets (live mode): per chunk, gate on
canRead(), issue one retry-wrapped transport call, record 1 read after it
succeeds, and append the returned tweets.  transport stands for the
retry-wrapped request; its error is whatever withRetry ultimately threw. -/
def getTweetsChunks (transport : List String → Except XApiError (List τ)) :
    List (List String) → QuotaTracker → OpOutcome (List τ)
  | [], q => ⟨.ok [], q, 0⟩
  | chunk :: rest, q =>
    if q.canRead 1 then
      match transport chunk with
      | .error e => ⟨.error e, q, 1⟩
      | .ok tweets =>
        let out := getTweetsChunks transport rest (q.recordReads 1)
        ⟨out.result.map (fun ts => tweets ++ ts), out.quota, out.transportCalls + 1⟩
    else
      ⟨.error (quotaGateError "Monthly read quota exhausted. Serving cached data."
          "GET /2/tweets"), q, 0⟩

/-- XApiClient.mockGetTweets: record 1 read, return one synthetic tweet per
requested id (createMockTweet is abstracted as mk since it draws random
metrics). -/
def mockGetTweets (mk : String → τ) (ids : List String) (q : QuotaTracker) :
    OpOutcome (List τ) :=
  ⟨.ok (ids.map mk), q.recordReads 1, 0⟩

/-- XApiClient.getTweets: mock path or the chunked live path over chunks of
100 ids. -/
def getTweets (mockMode : Bool) (transport : List String → Except XApiError (List τ))
    (mk : String → τ) (ids : List String) (q : QuotaTracker) : OpOutcome (List τ) :=
  if mockMode then mockGetTweets mk ids q
  else getTweetsChunks transport (chunkArray ids 100) q

/-- XApiClient.getUserTimeline: mock path records 1 read and fabricates
maxResults ?? 10 tweets; live path gates on canRead(), issues one transport
call, records 1 read after success. -/
def getUserTimeline (mockMode : Bool) (transport : Except XApiError (List τ))
    (mk : ℕ → τ) (maxResults : Option ℕ) (q : QuotaTracker) : OpOutcome (List τ) :=
  if mockMode then
    ⟨.ok ((List.range (maxResults.getD 10)).map mk), q.recordReads 1, 0⟩
  else if q.canRead 1 then
    match transport with
    | .error e => ⟨.error e, q, 1⟩
    | .ok tweets => ⟨.ok tweets, q.recordReads 1, 1⟩
  else
    ⟨.error (quotaGateError "Monthly read quota exhausted." "GET /2/users/:id/tweets"), q, 0⟩

/-- XApiClient.searchRecent: same quota shape as getUserTimeline, endpoint
GET /2/tweets/search/recent. -/
def searchRecent (mockMode : Bool) (transport : Except XApiError (List τ))
    (mk : ℕ → τ) (maxResults : Option ℕ) (q : QuotaTracker) : OpOutcome (List τ) :=
  if mockMode then
    ⟨.ok ((List.range (maxResults.getD 10)).map mk), q.recordReads 1, 0⟩
  else if q.canRead 1 then
    match transport with
    | .error e => ⟨.error e, q, 1⟩
    | .ok tweets => ⟨.ok tweets, q.recordReads 1, 1⟩
  else
    ⟨.error (quotaGateError "Monthly read quota exhausted." "GET /2/tweets/search/recent"), q, 0⟩

/-- XApiClient.createTweet: mock path records 1 write; live path gates on
canWrite(), issues one transport call, records 1 write after success. -/
def createTweet (mockMode : Bool) (transport : Except XApiError τ)
    (mock : τ) (q : QuotaTracker) : OpOutcome τ :=
  if mockMode then
    ⟨.ok mock, q.recordWrites 1, 0⟩
  else if q.canWrite 1 then
    match transport with
    | .error e => ⟨.error e, q, 1⟩
    | .ok tweet => ⟨.ok tweet, q.recordWrites 1, 1⟩
  else
    ⟨.error (quotaGateError "Monthly write quota exhausted." "POST /2/tweets"), q, 0⟩

-- ───────────────────────── auxiliary concrete values ─────────────────────────

/-- A transport error with a retryable status, used in concrete scenarios. -/
def serverError : XApiError :=
  { message := "X API error: 500 Internal Server Error", statusCode := 500
    endpoint := "GET /2/tweets" }

/-- A transport error with a non-retryable status, used in concrete
scenarios. -/
def notFoundError : XApiError :=
  { message := "X API error: 404 Not Found", statusCode := 404
    endpoint := "GET /2/tweets" }

/-- A retry config with a sub-1 multiplier, on which the backoff shrinks. -/
def decayConfig : RetryConfig :=
  { maxRetries := 3, baseDelayMs := 1000, maxDelayMs := 60000
    backoffMultiplier := 1/2, jitter := false }

/-- The default retry config with jitter switched off. -/
def noJitterConfig : RetryConfig := { DEFAULT_RETRY_CONFIG with jitter := false }

-- ───────────────────────── retry executor lemmas ─────────────────────────

lemma withRetryGo_ok {fn : ℕ → Except XApiError α} {attempt : ℕ} {v : α}
    (h : fn attempt = .ok v) (remaining : ℕ) :
    withRetryGo fn attempt remaining = (.ok v, 1) := by
  cases remaining <;> simp [withRetryGo, h]

lemma withRetryGo_zero {fn : ℕ → Except XApiError α} {attempt : ℕ} {e : XApiError}
    (h : fn attempt = .error e) :
    withRetryGo fn attempt 0 = (.error e, 1) := by
  simp [withRetryGo, h]

lemma withRetryGo_fatal {fn : ℕ → Except XApiError α} {attempt : ℕ} {e : XApiError}
    (h : fn attempt = .error e) (hr : isRetryable e.statusCode = false) (remaining : ℕ) :
    withRetryGo fn attempt remaining = (.error e, 1) := by
  cases remaining <;> simp [withRetryGo, h, hr]

lemma withRetryGo_retry {fn : ℕ → Except XApiError α} {attempt : ℕ} {e : XApiError}
    (h : fn attempt = .error e) (hr : isRetryable e.statusCode = true) (r : ℕ) :
    withRetryGo fn attempt (r + 1) =
      ((withRetryGo fn (attempt + 1) r).1, (withRetryGo fn (attempt + 1) r).2 + 1) := by
  simp [withRetryGo, h, hr]

lemma withRetryGo_count_le (fn : ℕ → Except XApiError α) :
    ∀ remaining attempt, (withRetryGo fn attempt remaining).2 ≤ remaining + 1 := by
  intro remaining
  induction remaining with
  | zero =>
    intro attempt
    cases h : fn attempt with
    | ok v => rw [withRetryGo_ok h]
    | error e => rw [withRetryGo_zero h]
  | succ r ih =>
    intro attempt
    cases h : fn attempt with
    | ok v => rw [withRetryGo_ok h]; omega
    | error e =>
      cases hr : isRetryable e.statusCode with
      | false => rw [withRetryGo_fatal h hr]; omega
      | true =>
        rw [withRetryGo_retry h hr]
        exact Nat.succ_le_succ (ih (attempt + 1))

lemma withRetryGo_all_retryable (fn : ℕ → Except XApiError α) :
    ∀ remaining attempt,
      (∀ i, i ≤ remaining → ∃ e, fn (attempt + i) = .error e ∧
        isRetryable e.statusCode = true) →
      (withRetryGo fn attempt remaining).2 = remaining + 1 ∧
      ∃ e, fn (attempt + remaining) = .error e ∧
        (withRetryGo fn attempt remaining).1 = .error e := by
  intro remaining
  induction remaining with
  | zero =>
    intro attempt h
    obtain ⟨e, he, -⟩ := h 0 (le_refl 0)
    rw [Nat.add_zero] at he
    rw [withRetryGo_zero he]
    exact ⟨rfl, e, by rw [Nat.add_zero]; exact he, rfl⟩
  | succ r ih =>
    intro attempt h
    obtain ⟨e0, he0, hr0⟩ := h 0 (Nat.zero_le _)
    rw [Nat.add_zero] at he0
    rw [withRetryGo_retry he0 hr0]
    have hnext : ∀ i, i ≤ r → ∃ e, fn (attempt + 1 + i) = .error e ∧
        isRetryable e.statusCode = true := by
      intro i hi
      have := h (i + 1) (Nat.succ_le_succ hi)
      simpa [Nat.add_comm, Nat.add_left_comm, Nat.add_assoc] using this
    obtain ⟨hcount, e, he, hres⟩ := ih (attempt + 1) hnext
    refine ⟨by omega, e, ?_, hres⟩
    have : attempt + (r + 1) = attempt + 1 + r := by omega
    rw [this]
    exact he

/-- C1: withRetry invokes the operation at most maxRetries + 1 times; a
first-try success is invoked exactly once; a non-retryable failure
(statusCode neither 429 nor in 500..504) is invoked exactly once with the
error rethrown unchanged; an operation failing with a retryable error on
every attempt is invoked exactly maxRetries + 1 times and the last error is
thrown verbatim. -/
theorem C1_withRetry_invocation_bounds (fn : ℕ → Except XApiError α)
    (config : RetryConfig) :
    (withRetry fn config).2 ≤ config.maxRetries + 1 ∧
    (∀ v, fn 0 = .ok v → withRetry fn config = (.ok v, 1)) ∧
    (∀ e, fn 0 = .error e → isRetryable e.statusCode = false →
      withRetry fn config = (.error e, 1)) ∧
    ((∀ i, i ≤ config.maxRetries → ∃ e, fn i = .error e ∧
        isRetryable e.statusCode = true) →
      (withRetry fn config).2 = config.maxRetries + 1 ∧
      ∃ e, fn config.maxRetries = .error e ∧ (withRetry fn config).1 = .error e) := by
  refine ⟨withRetryGo_count_le fn config.maxRetries 0, ?_, ?_, ?_⟩
  · intro v hv
    exact withRetryGo_ok hv config.maxRetries
  · intro e he hr
    exact withRetryGo_fatal he hr config.maxRetries
  · intro h
    have := withRetryGo_all_retryable fn config.maxRetries 0
      (by intro i hi; simpa using h i hi)
    simpa [withRetry] using this

theorem C1_witness :
    withRetry (fun _ => (.ok 7 : Except XApiError ℕ)) DEFAULT_RETRY_CONFIG = (.ok 7, 1) ∧
    withRetry (fun _ => (.error notFoundError : Except XApiError ℕ)) DEFAULT_RETRY_CONFIG
      = (.error notFoundError, 1) ∧
    (withRetry (fun _ => (.error serverError : Except XApiError ℕ)) DEFAULT_RETRY_CONFIG).2
      = 4 := by
  refine ⟨?_, ?_, ?_⟩
  · exact (C1_withRetry_invocation_bounds _ DEFAULT_RETRY_CONFIG).2.1 7 rfl
  · exact (C1_withRetry_invocation_bounds _ DEFAULT_RETRY_CONFIG).2.2.1
      notFoundError rfl (by decide)
  · have h := (C1_withRetry_invocation_bounds
      (fun _ => (.error serverError : Except XApiError ℕ)) DEFAULT_RETRY_CONFIG).2.2.2
      (by intro i _; exact ⟨serverError, rfl, by decide⟩)
    exact h.1

-- ───────────────────────── quota tracker theorems ─────────────────────────

/-- C2: canRead(n) iff readsUsed + n ≤ readCap × (1 − reservePercent);
canSystemRead(n) iff readsUsed + n ≤ readCap; canWrite(n) iff
writesUsed + n ≤ writeCap; and the default-config scenario: after
recordReads(13500) canRead(1) is false while canSystemRead(1) is true, and
after recordReads(15000) canSystemRead(1) is false. -/
theorem C2_quota_gate_predicates (t : QuotaTracker) (n : ℚ) :
    (t.canRead n = true ↔
      t.readsUsed + n ≤ t.config.monthlyReadCap * (1 - t.config.reservePercent)) ∧
    (t.canSystemRead n = true ↔ t.readsUsed + n ≤ t.config.monthlyReadCap) ∧
    (t.canWrite n = true ↔ t.writesUsed + n ≤ t.config.monthlyWriteCap) ∧
    ((QuotaTracker.fresh DEFAULT_QUOTA_CONFIG 0).recordReads 13500).canRead 1 = false ∧
    ((QuotaTracker.fresh DEFAULT_QUOTA_CONFIG 0).recordReads 13500).canSystemRead 1 = true ∧
    ((QuotaTracker.fresh DEFAULT_QUOTA_CONFIG 0).recordReads 15000).canSystemRead 1 = false := by
  refine ⟨decide_eq_true_iff, decide_eq_true_iff, decide_eq_true_iff, ?_, ?_, ?_⟩ <;>
    simp [QuotaTracker.canRead, QuotaTracker.canSystemRead, QuotaTracker.recordReads,
      QuotaTracker.fresh, DEFAULT_QUOTA_CONFIG] <;> norm_num

/-- C5 counterexample: a snapshot carrying resetsAt and cacheHitRate (and
nothing else) leaves the tracker entirely unchanged — the fields present in
the partial are not overwritten, contradicting the claim. -/
theorem C5_counterexample :
    (QuotaTracker.loadState (QuotaTracker.fresh DEFAULT_QUOTA_CONFIG 1700000000000)
        { resetsAt := some "2099-02-01T00:00:00.000Z", cacheHitRate := some (1/2) })
      = QuotaTracker.fresh DEFAULT_QUOTA_CONFIG 1700000000000 ∧
    (QuotaTracker.StatePart.resetsAt
        { resetsAt := some "2099-02-01T00:00:00.000Z", cacheHitRate := some (1/2) }) ≠ none ∧
    (QuotaTracker.StatePart.cacheHitRate
        { resetsAt := some "2099-02-01T00:00:00.000Z", cacheHitRate := some (1/2) }) ≠ none := by
  refine ⟨rfl, by simp, by simp⟩

/-- C5 amended: loadState overwrites exactly readsUsed (from
monthlyReadsUsed) and writesUsed (from monthlyWritesUsed) when present in
the partial; every other snapshot field (monthlyReadsLimit,
monthlyWritesLimit, resetsAt, cacheHitRate) is ignored even when present,
and every tracker field whose controlling snapshot field is absent keeps
its prior value. -/
theorem C5_loadState_only_reads_and_writes (t : QuotaTracker)
    (s : QuotaTracker.StatePart) :
    t.loadState s = { t with readsUsed := s.monthlyReadsUsed.getD t.readsUsed
                             writesUsed := s.monthlyWritesUsed.getD t.writesUsed } := by
  obtain ⟨r, rl, w, wl, ra, ch⟩ := s
  cases r <;> cases w <;> rfl

/-- C6 counterexample: with the default config and an active-user count of
zero (treated as one), getFairShareReads() = 16200, which exceeds
readCap × (1 − reservePercent) = 13500 — the 1.2 power-user buffer breaks
the invariant as claimed. -/
theorem C6_counterexample :
    ((QuotaTracker.fresh DEFAULT_QUOTA_CONFIG 0).setActiveUsers 0).getFairShareReads
      = 16200 ∧
    ¬ ((((QuotaTracker.fresh DEFAULT_QUOTA_CONFIG 0).setActiveUsers 0).getFairShareReads : ℚ)
        ≤ DEFAULT_QUOTA_CONFIG.monthlyReadCap * (1 - DEFAULT_QUOTA_CONFIG.reservePercent)) := by
  have h : ((QuotaTracker.fresh DEFAULT_QUOTA_CONFIG 0).setActiveUsers 0).getFairShareReads
      = 16200 := by
    simp [QuotaTracker.getFairShareReads, QuotaTracker.setActiveUsers,
      QuotaTracker.fresh, DEFAULT_QUOTA_CONFIG, jsFloor]
    norm_num
  refine ⟨h, ?_⟩
  rw [h]
  simp [DEFAULT_QUOTA_CONFIG]
  norm_num

/-- C6 amended: the fair-share value can exceed cap × (1 − reserve) by the
1.2 power-user buffer, but never by more: for every tracker whose
activeUsers is at least 1 (which setActiveUsers always guarantees, zero
included), getFairShareReads() ≤ readCap × (1 − reservePercent) × 1.2. -/
theorem C6_fair_share_bound (t : QuotaTracker)
    (hu : 1 ≤ t.activeUsers) (hcap : 0 ≤ t.config.monthlyReadCap)
    (hres : t.config.reservePercent ≤ 1) :
    ((t.getFairShareReads : ℚ) ≤
      t.config.monthlyReadCap * (1 - t.config.reservePercent) * (12/10)) ∧
    (∀ n : ℚ, 1 ≤ (t.setActiveUsers n).activeUsers) := by
  constructor
  · have hb : 0 ≤ t.config.monthlyReadCap * (1 - t.config.reservePercent) :=
      mul_nonneg hcap (by linarith)
    have hdiv : t.config.monthlyReadCap * (1 - t.config.reservePercent) / t.activeUsers ≤
        t.config.monthlyReadCap * (1 - t.config.reservePercent) := div_le_self hb hu
    have hmul := mul_le_mul_of_nonneg_right hdiv (by norm_num : (0:ℚ) ≤ 12/10)
    have hfloor := Int.floor_le
      (t.config.monthlyReadCap * (1 - t.config.reservePercent) / t.activeUsers * (12/10))
    simp only [QuotaTracker.getFairShareReads, jsFloor]
    linarith
  · intro n
    exact le_max_left 1 n

theorem C6_witness :
    (((QuotaTracker.fresh DEFAULT_QUOTA_CONFIG 0).getFairShareReads : ℚ) ≤
      DEFAULT_QUOTA_CONFIG.monthlyReadCap * (1 - DEFAULT_QUOTA_CONFIG.reservePercent)
        * (12/10)) :=
  (C6_fair_share_bound (QuotaTracker.fresh DEFAULT_QUOTA_CONFIG 0)
    (by norm_num [QuotaTracker.fresh])
    (by norm_num [QuotaTracker.fresh, DEFAULT_QUOTA_CONFIG])
    (by norm_num [QuotaTracker.fresh, DEFAULT_QUOTA_CONFIG])).1

-- ───────────────────────── backoff and parser theorems ─────────────────────────

lemma jsRound_mono {x y : ℚ} (h : x ≤ y) : jsRound x ≤ jsRound y :=
  Int.floor_le_floor (by linarith)

/-- C7 counterexample: the claim quantifies over every jitter-disabled
config, but with backoffMultiplier = 1/2 the delay shrinks from attempt 0
to attempt 1 (1000 ms down to 500 ms), so calculateDelay is not
non-decreasing in the attempt. -/
theorem C7_counterexample :
    calculateDelay 0 0 decayConfig = 1000 ∧
    calculateDelay 0 1 decayConfig = 500 ∧
    ¬ (calculateDelay 0 0 decayConfig ≤ calculateDelay 0 1 decayConfig) := by
  have h0 : calculateDelay 0 0 decayConfig = 1000 := by
    norm_num [calculateDelay, decayConfig, jsRound]
  have h1 : calculateDelay 0 1 decayConfig = 500 := by
    norm_num [calculateDelay, decayConfig, jsRound]
  refine ⟨h0, h1, ?_⟩
  rw [h0, h1]
  norm_num

/-- C7 amended: for every jitter-disabled config, calculateDelay(a, config)
equals min(baseDelay × multiplier^a, maxDelay) rounded to the nearest
millisecond and is independent of the random sample; it is non-decreasing
in the attempt provided baseDelayMs ≥ 0 and backoffMultiplier ≥ 1 (as in
every shipped config); with a multiplier below 1 it decreases. -/
theorem C7_calculateDelay_no_jitter (config : RetryConfig)
    (hj : config.jitter = false) :
    (∀ (random : ℚ) (a : ℕ), calculateDelay random a config =
      jsRound (min (config.baseDelayMs * config.backoffMultiplier ^ a)
        config.maxDelayMs)) ∧
    (∀ (r r' : ℚ) (a : ℕ), calculateDelay r a config = calculateDelay r' a config) ∧
    (0 ≤ config.baseDelayMs → 1 ≤ config.backoffMultiplier →
      ∀ a b : ℕ, a ≤ b → calculateDelay 0 a config ≤ calculateDelay 0 b config) := by
  have hdef : ∀ (random : ℚ) (a : ℕ), calculateDelay random a config =
      jsRound (min (config.baseDelayMs * config.backoffMultiplier ^ a)
        config.maxDelayMs) := by
    intro random a
    simp [calculateDelay, hj]
  refine ⟨hdef, fun r r' a => by rw [hdef, hdef], ?_⟩
  intro hbase hmult a b hab
  rw [hdef, hdef]
  apply jsRound_mono
  apply min_le_min _ le_rfl
  exact mul_le_mul_of_nonneg_left (pow_le_pow_right₀ hmult hab) hbase

theorem C7_witness :
    calculateDelay 0 1 noJitterConfig ≤ calculateDelay 0 2 noJitterConfig :=
  (C7_calculateDelay_no_jitter noJitterConfig rfl).2.2
    (by norm_num [noJitterConfig, DEFAULT_RETRY_CONFIG])
    (by norm_num [noJitterConfig, DEFAULT_RETRY_CONFIG])
    1 2 (by norm_num)

/-- C8 counterexample: a header map carrying the three rate-limit keys in
capitalized casing is rejected — the lookup is an exact (case-sensitive)
match on the lowercase keys, so the parser returns none although all three
keys are present in another casing; and a lowercase key that is present
but maps to the empty string also yields none, refuting the none-iff-absent
direction as well. -/
theorem C8_counterexample :
    parseRateLimitHeaders
      [("X-Rate-Limit-Limit", "100"), ("X-Rate-Limit-Remaining", "50"),
       ("X-Rate-Limit-Reset", "1700000000")] = none ∧
    parseRateLimitHeaders
      [("x-rate-limit-limit", ""), ("x-rate-limit-remaining", "50"),
       ("x-rate-limit-reset", "1700000000")] = none ∧
    lookupHeader
      [("x-rate-limit-limit", ""), ("x-rate-limit-remaining", "50"),
       ("x-rate-limit-reset", "1700000000")] "x-rate-limit-limit" = some "" := by
  exact ⟨rfl, rfl, rfl⟩

/-- C8 amended: parseRateLimitHeaders returns none iff any of the three
exact lowercase keys x-rate-limit-limit / x-rate-limit-remaining /
x-rate-limit-reset is absent or carries the empty string (JS falsiness);
the lookup is case-sensitive.  With all three lowercase keys present and
nonempty it returns the parsed integers plus reset converted to an
absolute millisecond timestamp. -/
theorem C8_parseRateLimitHeaders_lowercase (headers : List (String × String)) :
    (parseRateLimitHeaders headers = none ↔
      (jsFalsy (lookupHeader headers "x-rate-limit-limit")
        || jsFalsy (lookupHeader headers "x-rate-limit-remaining")
        || jsFalsy (lookupHeader headers "x-rate-limit-reset")) = true) ∧
    parseRateLimitHeaders
      [("x-rate-limit-limit", "100"), ("x-rate-limit-remaining", "50"),
       ("x-rate-limit-reset", "1700000000")]
      = some { limit := some 100, remaining := some 50, resetAt := some 1700000000000 } := by
  constructor
  · by_cases h : (jsFalsy (lookupHeader headers "x-rate-limit-limit")
        || jsFalsy (lookupHeader headers "x-rate-limit-remaining")
        || jsFalsy (lookupHeader headers "x-rate-limit-reset")) = true
    · simp [parseRateLimitHeaders, h]
    · simp [parseRateLimitHeaders, h]
  · rfl

/-- C9 counterexample: with resetAt 500 ms in the past (resetAt = 9500,
now = 10000) the 1-second skew buffer makes delayUntilReset return 500,
not 0, refuting the claim that any already-passed reset yields 0. -/
theorem C9_counterexample :
    (9500 : ℤ) < 10000 ∧ delayUntilReset 9500 10000 = 500 := by
  refine ⟨by norm_num, ?_⟩
  norm_num [delayUntilReset]

/-- C9 amended: delayUntilReset(resetAt) = max(0, resetAt − now + 1000 ms);
it returns 0 exactly when the reset time passed by at least the 1-second
buffer, i.e. whenever resetAt ≤ now − 1000. -/
theorem C9_delayUntilReset_buffer (resetAt now : ℤ) :
    delayUntilReset resetAt now = max 0 (resetAt - now + 1000) ∧
    (resetAt ≤ now - 1000 → delayUntilReset resetAt now = 0) := by
  refine ⟨rfl, fun h => ?_⟩
  simp only [delayUntilReset, max_eq_left_iff]
  omega

theorem C9_witness : delayUntilReset 0 2000 = 0 :=
  (C9_delayUntilReset_buffer 0 2000).2 (by norm_num)

-- ───────────────────────── client lemmas ─────────────────────────

lemma chunkArray_nil (size : ℕ) : chunkArray ([] : List α) size = [] := by
  rw [chunkArray]; simp

lemma chunkArray_cons (a : α) (arr : List α) (size : ℕ) (hs : size ≠ 0) :
    chunkArray (a :: arr) size =
      (a :: arr).take size :: chunkArray ((a :: arr).drop size) size := by
  rw [chunkArray]
  simp [hs]

lemma chunkArray_flatten (size : ℕ) (hs : size ≠ 0) :
    ∀ (n : ℕ) (arr : List α), arr.length ≤ n → (chunkArray arr size).flatten = arr := by
  intro n
  induction n with
  | zero =>
    intro arr h
    have : arr = [] := List.eq_nil_of_length_eq_zero (Nat.le_zero.mp h)
    subst this
    simp [chunkArray_nil]
  | succ n ih =>
    intro arr h
    match arr with
    | [] => simp [chunkArray_nil]
    | a :: rest =>
      rw [chunkArray_cons a rest size hs, List.flatten_cons,
        ih ((a :: rest).drop size) ?_, List.take_append_drop]
      have : 0 < size := Nat.pos_of_ne_zero hs
      simp only [List.length_cons] at h
      simp only [List.length_drop, List.length_cons]
      omega

lemma chunkArray_chunk_le (size : ℕ) :
    ∀ (n : ℕ) (arr : List α), arr.length ≤ n →
      ∀ c ∈ chunkArray arr size, c.length ≤ size := by
  intro n
  induction n with
  | zero =>
    intro arr h
    have : arr = [] := List.eq_nil_of_length_eq_zero (Nat.le_zero.mp h)
    subst this
    simp [chunkArray_nil]
  | succ n ih =>
    intro arr h c hc
    match arr with
    | [] => simp [chunkArray_nil] at hc
    | a :: rest =>
      by_cases hs : size = 0
      · rw [chunkArray] at hc
        simp [hs] at hc
      · rw [chunkArray_cons a rest size hs] at hc
        rcases List.mem_cons.mp hc with h1 | h2
        · subst h1
          simp [List.length_take]
        · refine ih ((a :: rest).drop size) ?_ c h2
          have : 0 < size := Nat.pos_of_ne_zero hs
          simp only [List.length_cons] at h
          simp only [List.length_drop, List.length_cons]
          omega

lemma canRead_true_iff (t : QuotaTracker) (n : ℚ) :
    t.canRead n = true ↔
      t.readsUsed + n ≤ t.config.monthlyReadCap * (1 - t.config.reservePercent) :=
  decide_eq_true_iff

lemma canRead_false_iff (t : QuotaTracker) (n : ℚ) :
    t.canRead n = false ↔
      ¬ (t.readsUsed + n ≤ t.config.monthlyReadCap * (1 - t.config.reservePercent)) := by
  rw [← canRead_true_iff]
  simp

lemma canWrite_true_iff (t : QuotaTracker) (n : ℚ) :
    t.canWrite n = true ↔ t.writesUsed + n ≤ t.config.monthlyWriteCap :=
  decide_eq_true_iff

lemma getTweetsChunks_nil (transport : List String → Except XApiError (List τ))
    (q : QuotaTracker) : getTweetsChunks transport [] q = ⟨.ok [], q, 0⟩ := rfl

lemma getTweetsChunks_gate_blocked (transport : List String → Except XApiError (List τ))
    (c : List String) (rest : List (List String)) (q : QuotaTracker)
    (h : q.canRead 1 = false) :
    getTweetsChunks transport (c :: rest) q =
      ⟨.error (quotaGateError "Monthly read quota exhausted. Serving cached data."
          "GET /2/tweets"), q, 0⟩ := by
  simp [getTweetsChunks, h]

lemma getTweetsChunks_transport_error (transport : List String → Except XApiError (List τ))
    (c : List String) (rest : List (List String)) (q : QuotaTracker) (e : XApiError)
    (h : q.canRead 1 = true) (he : transport c = .error e) :
    getTweetsChunks transport (c :: rest) q = ⟨.error e, q, 1⟩ := by
  simp [getTweetsChunks, h, he]

lemma getTweetsChunks_cons_ok (transport : List String → Except XApiError (List τ))
    (c : List String) (rest : List (List String)) (q : QuotaTracker) (ts : List τ)
    (h : q.canRead 1 = true) (hts : transport c = .ok ts) :
    getTweetsChunks transport (c :: rest) q =
      ⟨(getTweetsChunks transport rest (q.recordReads 1)).result.map (fun l => ts ++ l),
       (getTweetsChunks transport rest (q.recordReads 1)).quota,
       (getTweetsChunks transport rest (q.recordReads 1)).transportCalls + 1⟩ := by
  simp [getTweetsChunks, h, hts]

lemma getTweetsChunks_all_ok (transport : List String → Except XApiError (List τ))
    (hok : ∀ c, ∃ ts, transport c = .ok ts) :
    ∀ (chunks : List (List String)) (q : QuotaTracker),
      q.readsUsed + chunks.length ≤
        q.config.monthlyReadCap * (1 - q.config.reservePercent) →
      (getTweetsChunks transport chunks q).transportCalls = chunks.length ∧
      (getTweetsChunks transport chunks q).quota.readsUsed = q.readsUsed + chunks.length ∧
      ∃ ts, (getTweetsChunks transport chunks q).result = .ok ts := by
  intro chunks
  induction chunks with
  | nil =>
    intro q h
    exact ⟨rfl, by simp [getTweetsChunks_nil], [], rfl⟩
  | cons c rest ih =>
    intro q h
    simp only [List.length_cons] at h
    push_cast at h
    have hr : (0:ℚ) ≤ (rest.length : ℚ) := Nat.cast_nonneg _
    have hgate : q.canRead 1 = true := by
      rw [canRead_true_iff]
      linarith
    obtain ⟨ts, hts⟩ := hok c
    rw [getTweetsChunks_cons_ok transport c rest q ts hgate hts]
    have hih := ih (q.recordReads 1) (by
      simp only [QuotaTracker.recordReads]
      linarith)
    obtain ⟨h1, h2, ts', h3⟩ := hih
    refine ⟨by simp [h1], ?_, ⟨ts ++ ts', by rw [h3]; rfl⟩⟩
    rw [h2]
    simp only [QuotaTracker.recordReads, List.length_cons]
    push_cast
    ring

/-- C3: in live mode getTweets splits the id list into consecutive chunks
of at most 100, issues exactly one transport call per chunk, records
exactly 1 read per chunk call, and precedes each chunk's transport call
with a canRead gate that fails the operation with a quota-exhausted error
and zero transport contact when false. -/
theorem C3_getTweets_chunking (ids : List String)
    (transport : List String → Except XApiError (List τ)) (mk : String → τ)
    (q : QuotaTracker) :
    (chunkArray ids 100).flatten = ids ∧
    (∀ c ∈ chunkArray ids 100, c.length ≤ 100) ∧
    ((∀ c, ∃ ts, transport c = .ok ts) →
      q.readsUsed + (chunkArray ids 100).length ≤
        q.config.monthlyReadCap * (1 - q.config.reservePercent) →
      (getTweets false transport mk ids q).transportCalls = (chunkArray ids 100).length ∧
      (getTweets false transport mk ids q).quota.readsUsed
        = q.readsUsed + (chunkArray ids 100).length) ∧
    (∀ (q' : QuotaTracker) (c : List String) (rest : List (List String)),
      q'.canRead 1 = false →
      getTweetsChunks transport (c :: rest) q' =
        ⟨.error (quotaGateError "Monthly read quota exhausted. Serving cached data."
            "GET /2/tweets"), q', 0⟩) := by
  refine ⟨chunkArray_flatten 100 (by norm_num) ids.length ids le_rfl,
    chunkArray_chunk_le 100 ids.length ids le_rfl, ?_, ?_⟩
  · intro hok h
    have := getTweetsChunks_all_ok transport hok (chunkArray ids 100) q h
    simpa [getTweets] using ⟨this.1, this.2.1⟩
  · intro q' c rest h
    exact getTweetsChunks_gate_blocked transport c rest q' h

lemma chunkArray_replicate_150 :
    chunkArray (List.replicate 150 "id") 100
      = [List.replicate 100 "id", List.replicate 50 "id"] := by
  rw [chunkArray]
  norm_num [List.take_replicate, List.drop_replicate]
  rw [chunkArray]
  norm_num [List.take_replicate, List.drop_replicate]
  rw [chunkArray]
  norm_num

theorem C3_witness :
    (getTweets false (fun _ => (Except.ok [] : Except XApiError (List Unit)))
        (fun _ => ()) (List.replicate 150 "id")
        (QuotaTracker.fresh DEFAULT_QUOTA_CONFIG 0)).transportCalls = 2 ∧
    (getTweets false (fun _ => (Except.ok [] : Except XApiError (List Unit)))
        (fun _ => ()) (List.replicate 150 "id")
        (QuotaTracker.fresh DEFAULT_QUOTA_CONFIG 0)).quota.readsUsed = 2 := by
  have h := (C3_getTweets_chunking (List.replicate 150 "id")
      (fun _ => (Except.ok [] : Except XApiError (List Unit))) (fun _ => ())
      (QuotaTracker.fresh DEFAULT_QUOTA_CONFIG 0)).2.2.1
      (fun _ => ⟨[], rfl⟩)
      (by rw [chunkArray_replicate_150]
          norm_num [QuotaTracker.fresh, DEFAULT_QUOTA_CONFIG])
  rw [chunkArray_replicate_150] at h
  obtain ⟨h1, h2⟩ := h
  refine ⟨by simpa using h1, ?_⟩
  rw [h2]
  norm_num [QuotaTracker.fresh]

/-- C4 counterexample: the mock path does not reproduce the live path's
quota behaviour.  On 150 ids with a fresh default tracker, mock getTweets
records 1 read while live records 2; and with the user budget exhausted
(readsUsed 13500), mock still succeeds and records a read while the live
path fails the canRead gate with no transport contact and no recording. -/
theorem C4_counterexample :
    (getTweets true (fun _ => (Except.ok [] : Except XApiError (List Unit)))
        (fun _ => ()) (List.replicate 150 "id")
        (QuotaTracker.fresh DEFAULT_QUOTA_CONFIG 0)).quota.readsUsed = 1 ∧
    (getTweets false (fun _ => (Except.ok [] : Except XApiError (List Unit)))
        (fun _ => ()) (List.replicate 150 "id")
        (QuotaTracker.fresh DEFAULT_QUOTA_CONFIG 0)).quota.readsUsed = 2 ∧
    (getTweets true (fun _ => (Except.ok [] : Except XApiError (List Unit)))
        (fun _ => ()) (List.replicate 150 "id")
        ((QuotaTracker.fresh DEFAULT_QUOTA_CONFIG 0).recordReads 13500)).result
      = .ok (List.replicate 150 ()) ∧
    (getTweets true (fun _ => (Except.ok [] : Except XApiError (List Unit)))
        (fun _ => ()) (List.replicate 150 "id")
        ((QuotaTracker.fresh DEFAULT_QUOTA_CONFIG 0).recordReads 13500)).quota.readsUsed
      = 13501 ∧
    (getTweets false (fun _ => (Except.ok [] : Except XApiError (List Unit)))
        (fun _ => ()) (List.replicate 150 "id")
        ((QuotaTracker.fresh DEFAULT_QUOTA_CONFIG 0).recordReads 13500)).result
      = .error (quotaGateError "Monthly read quota exhausted. Serving cached data."
          "GET /2/tweets") ∧
    (getTweets false (fun _ => (Except.ok [] : Except XApiError (List Unit)))
        (fun _ => ()) (List.replicate 150 "id")
        ((QuotaTracker.fresh DEFAULT_QUOTA_CONFIG 0).recordReads 13500)).quota.readsUsed
      = 13500 ∧
    (getTweets false (fun _ => (Except.ok [] : Except XApiError (List Unit)))
        (fun _ => ()) (List.replicate 150 "id")
        ((QuotaTracker.fresh DEFAULT_QUOTA_CONFIG 0).recordReads 13500)).transportCalls
      = 0 := by
  have hall := getTweetsChunks_all_ok
      (fun _ => (Except.ok [] : Except XApiError (List Unit))) (fun _ => ⟨[], rfl⟩)
      (chunkArray (List.replicate 150 "id") 100) (QuotaTracker.fresh DEFAULT_QUOTA_CONFIG 0)
      (by rw [chunkArray_replicate_150]
          norm_num [QuotaTracker.fresh, DEFAULT_QUOTA_CONFIG])
  have hgateF : ((QuotaTracker.fresh DEFAULT_QUOTA_CONFIG 0).recordReads 13500).canRead 1
      = false := by
    rw [canRead_false_iff]
    norm_num [QuotaTracker.recordReads, QuotaTracker.fresh, DEFAULT_QUOTA_CONFIG]
  have hblocked := getTweetsChunks_gate_blocked
      (fun _ => (Except.ok [] : Except XApiError (List Unit)))
      (List.replicate 100 "id") [List.replicate 50 "id"]
      ((QuotaTracker.fresh DEFAULT_QUOTA_CONFIG 0).recordReads 13500) hgateF
  refine ⟨?_, ?_, ?_, ?_, ?_, ?_, ?_⟩
  · norm_num [getTweets, mockGetTweets, QuotaTracker.recordReads, QuotaTracker.fresh]
  · have := hall.2.1
    rw [chunkArray_replicate_150] at this
    simp only [getTweets, if_false, Bool.false_eq_true, chunkArray_replicate_150]
    rw [this]
    norm_num [QuotaTracker.fresh]
  · simp [getTweets, mockGetTweets, List.map_replicate]
  · norm_num [getTweets, mockGetTweets, QuotaTracker.recordReads, QuotaTracker.fresh]
  · simp only [getTweets, if_false, Bool.false_eq_true, chunkArray_replicate_150]
    rw [hblocked]
  · simp only [getTweets, if_false, Bool.false_eq_true, chunkArray_replicate_150]
    rw [hblocked]
    norm_num [QuotaTracker.recordReads, QuotaTracker.fresh]
  · simp only [getTweets, if_false, Bool.false_eq_true, chunkArray_replicate_150]
    rw [hblocked]

/-- C4 amended: mock mode records a flat 1 read per read operation (and 1
write per createTweet) without consulting canRead/canWrite, so its quota
recording agrees with live mode only for the single-call operations
(getUserTimeline, searchRecent, createTweet) when the live gate passes and
transport succeeds; mock getTweets always records exactly 1 read
regardless of the identifier count. -/
theorem C4_mock_vs_live_quota (q : QuotaTracker) (ids : List String)
    (mk : String → τ) (mk2 : ℕ → τ) (maxResults : Option ℕ)
    (transport1 : List String → Except XApiError (List τ))
    (transport : Except XApiError (List τ)) (tw : Except XApiError τ) (mock : τ) :
    (getTweets true transport1 mk ids q).quota = q.recordReads 1 ∧
    (q.canRead 1 = true → ∀ ts, transport = .ok ts →
      (getUserTimeline true transport mk2 maxResults q).quota
        = (getUserTimeline false transport mk2 maxResults q).quota ∧
      (searchRecent true transport mk2 maxResults q).quota
        = (searchRecent false transport mk2 maxResults q).quota) ∧
    (q.canWrite 1 = true → ∀ twv, tw = .ok twv →
      (createTweet true tw mock q).quota = (createTweet false tw mock q).quota) := by
  refine ⟨rfl, ?_, ?_⟩
  · intro hgate ts hts
    constructor <;> simp [getUserTimeline, searchRecent, hgate, hts]
  · intro hgate twv htw
    simp [createTweet, hgate, htw]

theorem C4_witness :
    (getUserTimeline true (Except.ok [()]) (fun _ => ()) none
        (QuotaTracker.fresh DEFAULT_QUOTA_CONFIG 0)).quota
      = (getUserTimeline false (Except.ok [()]) (fun _ => ()) none
        (QuotaTracker.fresh DEFAULT_QUOTA_CONFIG 0)).quota :=
  ((C4_mock_vs_live_quota (QuotaTracker.fresh DEFAULT_QUOTA_CONFIG 0) [] (fun _ => ())
      (fun _ => ()) none (fun _ => Except.ok []) (Except.ok [()]) (Except.ok ()) ()).2.1
    (by rw [canRead_true_iff]
        norm_num [QuotaTracker.fresh, DEFAULT_QUOTA_CONFIG])
    [()] rfl).1

/-- C10: in live mode quota is recorded only after a transport call
succeeds — a failed retry-wrapped transport call contributes nothing to
writesUsed (createTweet) or readsUsed (getUserTimeline, searchRecent, and
the current getTweets chunk) — yet this atomicity is per transport call:
in a batched getTweets over 150 ids starting at readsUsed 13499, the first
chunk's read is recorded and retained while the second chunk fails the
canRead gate and the whole operation throws. -/
theorem C10_record_only_after_success (q : QuotaTracker)
    (transport1 : List String → Except XApiError (List τ))
    (transport : Except XApiError (List τ)) (tw : Except XApiError τ)
    (mk2 : ℕ → τ) (maxResults : Option ℕ) (mock : τ) (e : XApiError) :
    (tw = .error e → (createTweet false tw mock q).quota = q) ∧
    (transport = .error e →
      (getUserTimeline false transport mk2 maxResults q).quota = q ∧
      (searchRecent false transport mk2 maxResults q).quota = q) ∧
    (∀ (c : List String) (rest : List (List String)),
      q.canRead 1 = true → transport1 c = .error e →
      getTweetsChunks transport1 (c :: rest) q = ⟨.error e, q, 1⟩) ∧
    ((getTweets false (fun _ => (Except.ok [] : Except XApiError (List Unit)))
        (fun _ => ()) (List.replicate 150 "id")
        ((QuotaTracker.fresh DEFAULT_QUOTA_CONFIG 0).recordReads 13499)).result
      = .error (quotaGateError "Monthly read quota exhausted. Serving cached data."
          "GET /2/tweets") ∧
     (getTweets false (fun _ => (Except.ok [] : Except XApiError (List Unit)))
        (fun _ => ()) (List.replicate 150 "id")
        ((QuotaTracker.fresh DEFAULT_QUOTA_CONFIG 0).recordReads 13499)).quota.readsUsed
      = 13500 ∧
     (getTweets false (fun _ => (Except.ok [] : Except XApiError (List Unit)))
        (fun _ => ()) (List.replicate 150 "id")
        ((QuotaTracker.fresh DEFAULT_QUOTA_CONFIG 0).recordReads 13499)).transportCalls
      = 1) := by
  refine ⟨?_, ?_, ?_, ?_⟩
  · intro htw
    by_cases hgate : q.canWrite 1 = true <;>
      simp [createTweet, htw, hgate]
  · intro ht
    constructor <;> (by_cases hgate : q.canRead 1 = true <;>
      simp [getUserTimeline, searchRecent, ht, hgate])
  · intro c rest hgate hc
    exact getTweetsChunks_transport_error transport1 c rest q e hgate hc
  · have hgate1 : ((QuotaTracker.fresh DEFAULT_QUOTA_CONFIG 0).recordReads 13499).canRead 1
        = true := by
      rw [canRead_true_iff]
      norm_num [QuotaTracker.recordReads, QuotaTracker.fresh, DEFAULT_QUOTA_CONFIG]
    have hgate2 : (((QuotaTracker.fresh DEFAULT_QUOTA_CONFIG 0).recordReads 13499).recordReads
        1).canRead 1 = false := by
      rw [canRead_false_iff]
      norm_num [QuotaTracker.recordReads, QuotaTracker.fresh, DEFAULT_QUOTA_CONFIG]
    have hstep1 := getTweetsChunks_cons_ok
      (fun _ => (Except.ok [] : Except XApiError (List Unit)))
      (List.replicate 100 "id") [List.replicate 50 "id"]
      ((QuotaTracker.fresh DEFAULT_QUOTA_CONFIG 0).recordReads 13499) [] hgate1 rfl
    have hstep2 := getTweetsChunks_gate_blocked
      (fun _ => (Except.ok [] : Except XApiError (List Unit)))
      (List.replicate 50 "id") []
      (((QuotaTracker.fresh DEFAULT_QUOTA_CONFIG 0).recordReads 13499).recordReads 1) hgate2
    simp only [getTweets, if_false, Bool.false_eq_true, chunkArray_replicate_150]
    rw [hstep1, hstep2]
    refine ⟨rfl, ?_, rfl⟩
    norm_num [QuotaTracker.recordReads, QuotaTracker.fresh]

theorem C10_witness :
    (createTweet false (Except.error serverError) ()
        (QuotaTracker.fresh DEFAULT_QUOTA_CONFIG 0)).quota
      = QuotaTracker.fresh DEFAULT_QUOTA_CONFIG 0 ∧
    getTweetsChunks (fun _ => (Except.error serverError : Except XApiError (List Unit)))
        [["a"]] (QuotaTracker.fresh DEFAULT_QUOTA_CONFIG 0)
      = ⟨.error serverError, QuotaTracker.fresh DEFAULT_QUOTA_CONFIG 0, 1⟩ := by
  constructor
  · exact (C10_record_only_after_success (QuotaTracker.fresh DEFAULT_QUOTA_CONFIG 0)
      (fun _ => (Except.error serverError : Except XApiError (List Unit)))
      (Except.error serverError) (Except.error serverError)
      (fun _ => ()) none () serverError).1 rfl
  · exact (C10_record_only_after_success (QuotaTracker.fresh DEFAULT_QUOTA_CONFIG 0)
      (fun _ => (Except.error serverError : Except XApiError (List Unit)))
      (Except.error serverError) (Except.error serverError)
      (fun _ => ()) none () serverError).2.2.1 ["a"] []
      (by rw [canRead_true_iff]
          norm_num [QuotaTracker.fresh, DEFAULT_QUOTA_CONFIG]) rfl

end ViralQuill
